import Mathlib

/-!
Verification development for the ISM AAA layer and gateway router.
Shallow embedding of the auth service (token issuance and validation,
RBAC, audit trail, registration) and of the gateway handlers
(health aggregation, proxy routes), with theorems settling the
behavioural claims of the specification.
-/

namespace ISM

/-- Model of a FastAPI HTTPException: status code and detail message. -/
structure HError where
  status_code : Nat
  detail : String
deriving DecidableEq, Repr

namespace auth

/-- JWT payload as built by create_token in auth_service/auth.py:
sub, role, and an expiry timestamp (seconds since epoch). -/
structure Payload where
  sub : String
  role : String
  exp : Nat
deriving DecidableEq, Repr

/-- Process-wide signing secret, from auth_service/main.py. -/
def SECRET_KEY : String := "supersecret"

/-- Symbolic model of a signed JWT: the encoded payload together with
the key it was signed with. The external jwt library is modelled
abstractly: a signature verifies against SECRET_KEY exactly when the
token was signed with SECRET_KEY. -/
structure Token where
  payload : Payload
  sigKey : String
deriving DecidableEq, Repr

/-- Errors of the modelled jwt.decode: expired token or bad signature. -/
inductive JwtError
  | ExpiredSignature
  | InvalidToken
deriving DecidableEq, Repr

/-- create_token from auth_service/auth.py (identical copy in
auth_service/main.py): payload sub, role, exp = now + 30 minutes,
signed with SECRET_KEY. The parameter now is the issuance instant in
seconds. -/
def create_token (now : Nat) (username : String) (role : String) : Token :=
  { payload := { sub := username, role := role, exp := now + 30 * 60 }
    sigKey := SECRET_KEY }

/-- decode_token from auth_service/auth.py: jwt.decode with the shared
secret. Signature mismatch raises InvalidToken; an expiry in the past
raises ExpiredSignature; otherwise the payload is returned. -/
def decode_token (now : Nat) (token : Token) : Except JwtError Payload :=
  if token.sigKey ≠ SECRET_KEY then .error .InvalidToken
  else if token.payload.exp < now then .error .ExpiredSignature
  else .ok token.payload

/-- verify_token from auth_service/main.py: decodes the bearer token,
mapping ExpiredSignatureError to 401 Token expired and
InvalidTokenError to 401 Invalid token. -/
def verify_token (now : Nat) (token : Token) : Except HError Payload :=
  match decode_token now token with
  | .ok payload => .ok payload
  | .error .ExpiredSignature => .error { status_code := 401, detail := "Token expired" }
  | .error .InvalidToken => .error { status_code := 401, detail := "Invalid token" }

end auth

/-- Audit log entry as stored in AUDIT_LOGS_DB by auth_service/routes.py. -/
structure AuditEntry where
  id : Nat
  user_id : Option Nat
  action : Option String
  resource : Option String
  status : String
  ip_address : String
  timestamp : Nat
  details : Option String
deriving DecidableEq, Repr

namespace rbac

/-- Outcome of the role_required dependency in auth_service/rbac.py:
either the decoded payload, an HTTPException 403 Forbidden, or an
uncaught jwt exception propagating out of decode_token. -/
inductive RbacResult
  | ok (payload : auth.Payload)
  | forbidden (e : HError)
  | jwtRaise (e : auth.JwtError)
deriving DecidableEq, Repr

/-- role_required from auth_service/rbac.py: decodes the token, raises
403 Forbidden when the role of the payload differs from the required
role, and returns the payload otherwise. The audit-trail state is
threaded through unchanged because rbac.py performs no audit write on
any path. -/
def role_required (required_role : String) (now : Nat) (token : auth.Token)
    (audit : List AuditEntry) : RbacResult × List AuditEntry :=
  match auth.decode_token now token with
  | .error e => (.jwtRaise e, audit)
  | .ok payload =>
      if payload.role ≠ required_role then
        (.forbidden { status_code := 403, detail := "Forbidden" }, audit)
      else (.ok payload, audit)

end rbac

namespace routes

/-- User roles of auth_service/models.py (a closed string enum). -/
inductive UserRole
  | admin
  | instructor
  | student
  | staff
deriving DecidableEq, Repr

/-- UserCreate request model of auth_service/models.py: email,
full_name, password. The model carries no role field. -/
structure UserCreate where
  email : String
  full_name : String
  password : String
deriving DecidableEq, Repr

/-- Stored user record as built by register in auth_service/routes.py. -/
structure User where
  id : Nat
  email : String
  full_name : String
  password : String
  role : UserRole
  is_active : Bool
  created_at : Nat
deriving DecidableEq, Repr

/-- log_audit helper of auth_service/routes.py: appends one entry to
AUDIT_LOGS_DB with id = len(AUDIT_LOGS_DB) + 1. -/
def log_audit (db : List AuditEntry) (now : Nat) (user_id : Option Nat)
    (action : Option String) (resource : Option String) (status : String)
    (ip_address : String) (details : Option String) : List AuditEntry :=
  db ++ [{ id := db.length + 1, user_id := user_id, action := action,
           resource := resource, status := status, ip_address := ip_address,
           timestamp := now, details := details }]

/-- create_audit_log endpoint of auth_service/routes.py: appends one
entry with id = len(AUDIT_LOGS_DB) + 1, user_id None, fixed ip, and
returns the entry. -/
def create_audit_log (db : List AuditEntry) (now : Nat) (action : String)
    (resource : String) (status : String) (details : Option String) :
    AuditEntry × List AuditEntry :=
  let log_entry : AuditEntry :=
    { id := db.length + 1, user_id := none, action := some action,
      resource := some resource, status := status,
      ip_address := "127.0.0.1", timestamp := now, details := details }
  (log_entry, db ++ [log_entry])

/-- The two operations that write to AUDIT_LOGS_DB. -/
inductive AuditOp
  | logAudit (now : Nat) (user_id : Option Nat) (action : Option String)
      (resource : Option String) (status : String) (ip_address : String)
      (details : Option String)
  | createLog (now : Nat) (action : String) (resource : String)
      (status : String) (details : Option String)

/-- Apply one audit-writing operation to the store. -/
def applyOp (db : List AuditEntry) : AuditOp → List AuditEntry
  | .logAudit now u a r s ip d => log_audit db now u a r s ip d
  | .createLog now a r s d => (create_audit_log db now a r s d).2

/-- Run a sequence of audit-writing operations starting from the empty
store, as the service does over its process lifetime. -/
def runOps (ops : List AuditOp) : List AuditEntry :=
  ops.foldl applyOp []

/-- get_audit_logs of auth_service/routes.py. The python parameters
default to None, and the filters are applied under python truthiness:
the user_id filter only when user_id is a nonzero int, the action
filter only when action is a nonempty string. -/
def get_audit_logs (db : List AuditEntry) (user_id : Option Nat)
    (action : Option String) : List AuditEntry :=
  let logs := db
  let logs := match user_id with
    | some v => if v ≠ 0 then logs.filter (fun log => log.user_id == some v) else logs
    | none => logs
  let logs := match action with
    | some a => if a ≠ "" then logs.filter (fun log => log.action == some a) else logs
    | none => logs
  logs

/-- Query semantics written from the words of the specification, for
comparison with get_audit_logs: the result is exactly the entries
satisfying every supplied filter (conjunction), an absent filter
imposes no constraint, in insertion order. -/
def specQuery (db : List AuditEntry) (user_id : Option Nat)
    (action : Option String) : List AuditEntry :=
  db.filter (fun log =>
    (match user_id with
     | some v => log.user_id == some v
     | none => true)
    && (match action with
        | some a => log.action == some a
        | none => true))

/-- A concrete stored audit entry, used to evaluate the query
operation on a one-entry store. -/
def sampleEntry : AuditEntry :=
  { id := 1, user_id := some 1, action := some "login",
    resource := some "user", status := "success",
    ip_address := "127.0.0.1", timestamp := 0, details := none }

/-- get_permissions_for_role of auth_service/routes.py: static table
over the role values, with dict.get default of the empty list for any
role not in the table. -/
def get_permissions_for_role (role : String) : List String :=
  if role = "admin" then
    ["read:users", "write:users", "delete:users", "read:audit_logs",
     "read:finances", "write:finances"]
  else if role = "instructor" then
    ["read:students", "write:students", "read:curriculum",
     "write:curriculum", "read:grades"]
  else if role = "student" then
    ["read:profile", "write:profile", "read:grades", "read:curriculum"]
  else if role = "staff" then
    ["read:all", "write:finance", "write:staff"]
  else []

/-- Python str.startswith, modelled over the character lists of the
two strings. -/
def startswith (s p : String) : Bool :=
  p.data.isPrefixOf s.data

/-- verify_token of auth_service/routes.py: mock validation accepting
any token string that starts with the prefix access_token, raising 401
Invalid token otherwise, and returning None on success. -/
def verify_token (token : String) : Except HError (Option User) :=
  if ¬ startswith token "access_token" then
    .error { status_code := 401, detail := "Invalid token" }
  else .ok none

/-- State of the auth service routes module: USERS_DB keyed by id,
MOCK_USER_ID_COUNTER, and AUDIT_LOGS_DB. -/
structure AuthState where
  users : List (Nat × User)
  counter : Nat
  audit : List AuditEntry
deriving DecidableEq, Repr

/-- register of auth_service/routes.py: rejects a duplicate email with
400 after a failure audit entry; otherwise allocates the next user id,
stores the new user with role STUDENT and is_active True, writes a
success audit entry, and returns the user. -/
def register (st : AuthState) (now : Nat) (user_data : UserCreate) :
    Except HError User × AuthState :=
  if st.users.any (fun p => p.2.email == user_data.email) then
    let audit' := log_audit st.audit now none (some "register") (some "user")
      "failure" "127.0.0.1" (some "email_already_exists")
    (.error { status_code := 400, detail := "Email already registered" },
     { st with audit := audit' })
  else
    let user_id := st.counter
    let new_user : User :=
      { id := user_id, email := user_data.email,
        full_name := user_data.full_name, password := user_data.password,
        role := .student, is_active := true, created_at := now }
    (.ok new_user,
     { users := st.users ++ [(user_id, new_user)], counter := st.counter + 1,
       audit := log_audit st.audit now (some user_id) (some "register")
         (some "user") "success" "127.0.0.1" none })

end routes

namespace gateway

/-- Outcome of one backend HTTP call as seen by the gateway: either a
response with a status code and JSON body, or a raised exception
(timeout, connection failure, and the like) with its message. -/
inductive ProbeResult
  | response (status_code : Nat) (body : String)
  | exn (msg : String)
deriving DecidableEq, Repr

/-- Value stored per service in the health map: either the parsed JSON
body of a 200 response, or a plain string. -/
inductive HealthVal
  | json (body : String)
  | text (s : String)
deriving DecidableEq, Repr

/-- The response of the gateway health endpoint. -/
structure HealthResponse where
  gateway : String
  services : List (String × HealthVal)
deriving DecidableEq, Repr

/-- Entry computed for one service inside the health_check loop of
gateway_service/main.py: the JSON body when the probe returned 200,
the string unhealthy for any other status, and the string error:
followed by the exception text when the probe raised. -/
def probeEntry : ProbeResult → HealthVal
  | .response status_code body =>
      if status_code = 200 then .json body else .text "unhealthy"
  | .exn msg => .text ("error: " ++ msg)

/-- health_check of gateway_service/main.py: iterates over the
registered services, computing one entry per service from its own
probe outcome, and returns gateway healthy together with the map. -/
def health_check (probes : List (String × ProbeResult)) : HealthResponse :=
  let services_health := probes.foldl
    (fun acc p => acc ++ [(p.1, probeEntry p.2)]) []
  { gateway := "healthy", services := services_health }

/-- An error entry in the sense of the specification: the literal
string error: followed by a reason. -/
def isErrorEntry (v : HealthVal) : Prop :=
  ∃ msg : String, v = .text ("error: " ++ msg)

/-- What a proxy handler returns to the original caller: either a 200
with a JSON body, or a raised HTTPException with a status code and
detail. -/
inductive GatewayOutcome
  | ok (body : String)
  | httpError (status_code : Nat) (detail : String)
deriving DecidableEq, Repr

/-- register of gateway_service/main.py: forwards to the auth service
and returns response.json() unconditionally, with no status check. -/
def register (resp : ProbeResult) : GatewayOutcome :=
  match resp with
  | .response _ body => .ok body
  | .exn msg => .httpError 500 msg

/-- login of gateway_service/main.py: forwards to the auth service and
raises HTTPException with the backend status code and body when the
status is not 200. -/
def login (resp : ProbeResult) : GatewayOutcome :=
  match resp with
  | .response status_code body =>
      if status_code ≠ 200 then .httpError status_code body else .ok body
  | .exn msg => .httpError 500 msg

/-- The property claimed of the proxy handlers: a non-2xx backend
response is surfaced as an error carrying the same status code. -/
def surfacesBackendStatus (handler : ProbeResult → GatewayOutcome) : Prop :=
  ∀ status_code body, status_code < 200 ∨ 300 ≤ status_code →
    ∃ d, handler (.response status_code body) = .httpError status_code d

end gateway

/-! ## Theorems -/

/-- C4: every token produced by create_token has its expiry timestamp
equal to its issuance time plus exactly 30 minutes, for every subject
and role. -/
theorem issued_token_expiry_policy :
    ∀ (now : Nat) (subject role : String),
      (auth.create_token now subject role).payload.exp = now + 30 * 60 := by
  intro now subject role
  rfl

/-- C3: validating a token immediately after it was issued by
create_token succeeds and returns exactly that subject and that role,
both through decode_token and through the verify_token wrapper. -/
theorem validate_after_issue_roundtrip :
    ∀ (now : Nat) (subject role : String),
      auth.decode_token now (auth.create_token now subject role)
          = .ok { sub := subject, role := role, exp := now + 30 * 60 }
      ∧ auth.verify_token now (auth.create_token now subject role)
          = .ok { sub := subject, role := role, exp := now + 30 * 60 } := by
  intro now subject role
  have hdec : auth.decode_token now (auth.create_token now subject role)
      = .ok { sub := subject, role := role, exp := now + 30 * 60 } := by
    simp [auth.decode_token, auth.create_token]
  exact ⟨hdec, by simp [auth.verify_token, hdec]⟩

/-- C2: the role_required dependency, deciding Forbidden for a valid
token whose role student differs from the required role admin, raises
403 Forbidden and leaves the audit trail exactly as it was: the code
writes no access_denied entry on this path. -/
theorem forbidden_decision_writes_no_audit_entry :
    ∀ (audit : List AuditEntry) (now : Nat),
      rbac.role_required "admin" now (auth.create_token now "alice" "student") audit
        = (.forbidden { status_code := 403, detail := "Forbidden" }, audit) := by
  intro audit now
  simp [rbac.role_required, auth.decode_token, auth.create_token]

/-- Every audit-writing operation appends exactly one entry, whose id
is the current store length plus one. -/
theorem applyOp_eq_append (db : List AuditEntry) (op : routes.AuditOp) :
    ∃ e, routes.applyOp db op = db ++ [e] ∧ e.id = db.length + 1 := by
  cases op
  · exact ⟨_, rfl, rfl⟩
  · exact ⟨_, rfl, rfl⟩

/-- Running audit-writing operations from any store appends entries
whose ids continue the sequence from the store length. -/
theorem foldl_applyOp_map_id :
    ∀ (ops : List routes.AuditOp) (db : List AuditEntry),
      (List.foldl routes.applyOp db ops).map AuditEntry.id
        = db.map AuditEntry.id ++ List.range' (db.length + 1) ops.length := by
  intro ops
  induction ops with
  | nil => intro db; simp
  | cons op rest ih =>
      intro db
      obtain ⟨e, he, hid⟩ := applyOp_eq_append db op
      rw [List.foldl_cons, he, ih (db ++ [e])]
      simp only [List.map_append, List.map_cons, List.map_nil,
        List.length_append, List.length_cons, List.length_nil]
      rw [List.range'_succ]
      simp [hid, List.append_assoc]

/-- The audit store after a run of operations has one entry per
operation. -/
theorem runOps_length (ops : List routes.AuditOp) :
    (routes.runOps ops).length = ops.length := by
  have h := congrArg List.length (foldl_applyOp_map_id ops [])
  simpa [routes.runOps] using h

/-- C6: across every sequence of append operations on the audit trail,
the assigned ids are strictly increasing, and each further append only
adds one entry at the end, with an id larger than every previously
assigned id, leaving every written entry in place in insertion order. -/
theorem audit_trail_append_only_increasing :
    ∀ ops : List routes.AuditOp,
      ((routes.runOps ops).map AuditEntry.id).Pairwise (· < ·)
      ∧ ∀ op : routes.AuditOp, ∃ e,
          routes.runOps (ops ++ [op]) = routes.runOps ops ++ [e]
          ∧ ∀ e' ∈ routes.runOps ops, e'.id < e.id := by
  intro ops
  have hmap := foldl_applyOp_map_id ops []
  constructor
  · rw [routes.runOps, hmap]
    simpa using List.pairwise_lt_range' 1 ops.length
  · intro op
    obtain ⟨e, he, hid⟩ := applyOp_eq_append (routes.runOps ops) op
    refine ⟨e, ?_, ?_⟩
    · rw [routes.runOps, List.foldl_append]
      exact he
    · intro e' he'
      have hmem : e'.id ∈ (routes.runOps ops).map AuditEntry.id :=
        List.mem_map_of_mem _ he'
      rw [routes.runOps, hmap] at hmem
      simp only [List.map_nil, List.length_nil, List.nil_append] at hmem
      have hrange := (List.mem_range'_1).mp hmem
      rw [hid, runOps_length]
      omega

/-- Instantiation of the audit-trail theorem on a concrete run of two
appends. -/
theorem audit_trail_append_only_increasing_witness :
    ∃ e, routes.runOps
          ([routes.AuditOp.createLog 0 "login" "user" "success" none]
            ++ [routes.AuditOp.logAudit 1 (some 1) (some "login")
                  (some "user") "failure" "127.0.0.1" none])
        = routes.runOps [routes.AuditOp.createLog 0 "login" "user" "success" none] ++ [e]
        ∧ ∀ e' ∈ routes.runOps [routes.AuditOp.createLog 0 "login" "user" "success" none],
            e'.id < e.id :=
  (audit_trail_append_only_increasing
    [routes.AuditOp.createLog 0 "login" "user" "success" none]).2
    (routes.AuditOp.logAudit 1 (some 1) (some "login") (some "user")
      "failure" "127.0.0.1" none)

/-- C7 counterexample: on a store holding one entry with user_id 1, a
query that supplies the filter userId = 0 is ignored by the code under
python truthiness and returns the entry, while the specified
conjunctive-filter semantics returns nothing. -/
theorem get_audit_logs_truthiness_counterexample :
    routes.get_audit_logs [routes.sampleEntry] (some 0) none
        = [routes.sampleEntry]
    ∧ routes.specQuery [routes.sampleEntry] (some 0) none = [] := by
  constructor
  · rfl
  · rfl

/-- C7 amended: for every store and every combination of filters whose
supplied values are truthy (a nonzero userId, a nonempty action), the
query returns exactly the entries satisfying all supplied filters
conjunctively, an absent filter imposes no constraint, and the result
preserves insertion order. -/
theorem get_audit_logs_conjunctive_filters :
    ∀ (db : List AuditEntry) (user_id : Option Nat) (action : Option String),
      (∀ v, user_id = some v → v ≠ 0) →
      (∀ a, action = some a → a ≠ "") →
      routes.get_audit_logs db user_id action
        = routes.specQuery db user_id action := by
  intro db user_id action hu ha
  cases user_id with
  | none =>
      cases action with
      | none => simp [routes.get_audit_logs, routes.specQuery]
      | some a =>
          have hna : a ≠ "" := ha a rfl
          simp [routes.get_audit_logs, routes.specQuery, hna]
  | some v =>
      have hnv : v ≠ 0 := hu v rfl
      cases action with
      | none => simp [routes.get_audit_logs, routes.specQuery, hnv]
      | some a =>
          have hna : a ≠ "" := ha a rfl
          simp only [routes.get_audit_logs, routes.specQuery, hnv, hna,
            ne_eq, not_false_eq_true, if_true, List.filter_filter]
          congr 1
          funext log
          exact Bool.and_comm _ _

/-- Instantiation of the amended query theorem on a one-entry store
with a truthy userId filter. -/
theorem get_audit_logs_conjunctive_filters_witness :
    routes.get_audit_logs [routes.sampleEntry] (some 1) none
      = routes.specQuery [routes.sampleEntry] (some 1) none :=
  get_audit_logs_conjunctive_filters [routes.sampleEntry] (some 1) none
    (fun v hv => by cases hv; decide) (fun a ha => by cases ha)

/-- C8: the permissions table is a pure function of the role string:
each of the four defined roles maps to a non-empty permission list,
and every other role value maps to the empty list, deny-by-default. -/
theorem permissions_total_and_deny_by_default :
    (∀ r ∈ (["admin", "instructor", "student", "staff"] : List String),
        routes.get_permissions_for_role r ≠ [])
    ∧ ∀ r : String,
        r ∉ (["admin", "instructor", "student", "staff"] : List String) →
        routes.get_permissions_for_role r = [] := by
  constructor
  · intro r hr
    simp only [List.mem_cons, List.mem_singleton] at hr
    rcases hr with h | h | h | h | h
    all_goals first
    | (subst h; decide)
    | cases h
  · intro r hr
    simp only [List.mem_cons, List.mem_singleton, not_or] at hr
    obtain ⟨h1, h2, h3, h4, _⟩ := hr
    simp [routes.get_permissions_for_role, h1, h2, h3, h4]

/-- Instantiation of the permissions theorem: the admin role has a
non-empty permission list and an unknown role teacher has none. -/
theorem permissions_total_and_deny_by_default_witness :
    routes.get_permissions_for_role "admin" ≠ []
    ∧ routes.get_permissions_for_role "teacher" = [] :=
  ⟨permissions_total_and_deny_by_default.1 "admin" (by decide),
   permissions_total_and_deny_by_default.2 "teacher" (by decide)⟩

/-- C9: the mock token check of routes.py accepts exactly the strings
beginning with access_token, and fails with a 401 Invalid token error
on every other string, consulting nothing else. -/
theorem routes_verify_token_characterization :
    ∀ token : String,
      (routes.verify_token token = .ok none
        ↔ ∃ rest : String, token = "access_token" ++ rest)
      ∧ (routes.verify_token token ≠ .ok none →
          routes.verify_token token
            = .error { status_code := 401, detail := "Invalid token" }) := by
  intro token
  have hpre : routes.startswith token "access_token" = true
      ↔ ∃ rest : String, token = "access_token" ++ rest := by
    rw [routes.startswith, List.isPrefixOf_iff_prefix]
    constructor
    · rintro ⟨t, ht⟩
      refine ⟨⟨t⟩, String.ext ?_⟩
      rw [String.data_append]
      exact ht.symm
    · rintro ⟨rest, hrest⟩
      exact ⟨rest.data, by rw [hrest, String.data_append]⟩
  constructor
  · constructor
    · intro hok
      apply hpre.mp
      by_contra hns
      simp [routes.verify_token, hns] at hok
    · intro hex
      simp [routes.verify_token, hpre.mpr hex]
  · intro hne
    by_cases hs : routes.startswith token "access_token" = true
    · exact absurd (by simp [routes.verify_token, hs]) hne
    · simp [routes.verify_token, hs]

/-- Instantiation of the token-check characterization: a string with
the access_token prefix is accepted and a bearer string is rejected
with 401. -/
theorem routes_verify_token_characterization_witness :
    routes.verify_token "access_token_1_99" = .ok none
    ∧ routes.verify_token "bearer_x"
        = .error { status_code := 401, detail := "Invalid token" } :=
  ⟨(routes_verify_token_characterization "access_token_1_99").1.mpr
      ⟨"_1_99", by decide⟩,
   (routes_verify_token_characterization "bearer_x").2
      (by intro h; simp [routes.verify_token, routes.startswith] at h)⟩

/-- C10: whenever registration succeeds, the created user is stored
with role student and is_active true, for every state and every input;
the UserCreate request model carries no role field, so no caller can
choose a role at registration time. -/
theorem register_assigns_student_role_and_active :
    ∀ (st : routes.AuthState) (now : Nat) (ud : routes.UserCreate)
      (u : routes.User) (st' : routes.AuthState),
      routes.register st now ud = (.ok u, st') →
      u.role = .student ∧ u.is_active = true ∧ (u.id, u) ∈ st'.users := by
  intro st now ud u st' h
  by_cases hdup : st.users.any (fun p => p.2.email == ud.email)
  · rw [routes.register, if_pos hdup] at h
    exact absurd (congrArg Prod.fst h) (by simp)
  · rw [routes.register, if_neg hdup] at h
    have hu : u = (⟨st.counter, ud.email, ud.full_name, ud.password,
        .student, true, now⟩ : routes.User) := by
      have := congrArg Prod.fst h
      simpa using this.symm
    have hst : st'.users = st.users ++ [(st.counter, u)] := by
      have := congrArg (fun p => (Prod.snd p).users) h
      simpa [hu] using this.symm
    refine ⟨by rw [hu], by rw [hu], ?_⟩
    rw [hst, hu]
    simp

/-- Instantiation of the registration theorem on an empty store. -/
theorem register_assigns_student_role_and_active_witness :
    (⟨1, "alice@example.com", "Alice", "pw", .student, true, 0⟩ :
        routes.User).role = routes.UserRole.student
    ∧ (⟨1, "alice@example.com", "Alice", "pw", .student, true, 0⟩ :
        routes.User).is_active = true
    ∧ ((1 : Nat),
        (⟨1, "alice@example.com", "Alice", "pw", .student, true, 0⟩ :
          routes.User))
        ∈ ((routes.register ⟨[], 1, []⟩ 0
              ⟨"alice@example.com", "Alice", "pw"⟩).2).users :=
  register_assigns_student_role_and_active ⟨[], 1, []⟩ 0
    ⟨"alice@example.com", "Alice", "pw"⟩ _ _ rfl

/-- C5 counterexample: the gateway register handler does not surface
the backend status code: a backend 400 response is returned as a 200
with the backend body, so the claimed property fails on it. -/
theorem gateway_register_wraps_backend_error :
    ¬ gateway.surfacesBackendStatus gateway.register := by
  intro h
  obtain ⟨d, hd⟩ := h 400 "email exists" (Or.inr (by omega))
  simp [gateway.register] at hd

/-- C5 amended: the login handler surfaces every non-2xx backend
response as an error carrying the same status code, while the register
handler returns the backend body as a 200 regardless of the backend
status. -/
theorem gateway_login_preserves_backend_status :
    (∀ (status_code : Nat) (body : String),
        status_code < 200 ∨ 300 ≤ status_code →
        gateway.login (.response status_code body)
          = .httpError status_code body)
    ∧ ∀ (status_code : Nat) (body : String),
        gateway.register (.response status_code body) = .ok body := by
  constructor
  · intro status_code body hsc
    rw [gateway.login, if_pos (by omega)]
  · intro status_code body
    rfl

/-- Instantiation of the login status-preservation theorem at a 404
backend response. -/
theorem gateway_login_preserves_backend_status_witness :
    gateway.login (.response 404 "not found") = .httpError 404 "not found" :=
  gateway_login_preserves_backend_status.1 404 "not found"
    (Or.inr (by omega))

/-- The health-check fold over the service map builds one entry per
probed service, in order. -/
theorem health_foldl_eq_map
    (probes : List (String × gateway.ProbeResult))
    (acc : List (String × gateway.HealthVal)) :
    probes.foldl (fun a p => a ++ [(p.1, gateway.probeEntry p.2)]) acc
      = acc ++ probes.map (fun p => (p.1, gateway.probeEntry p.2)) := by
  induction probes generalizing acc with
  | nil => simp
  | cons p rest ih => simp [ih]

/-- C1 counterexample: a probe returning a non-2xx 500 status is
recorded as the plain string unhealthy, which is not an error entry in
the sense of the specification. -/
theorem health_check_non2xx_not_error_entry :
    (gateway.health_check [("auth", .response 500 "")]).services
        = [("auth", .text "unhealthy")]
    ∧ ¬ gateway.isErrorEntry (.text "unhealthy") := by
  constructor
  · rfl
  · rintro ⟨msg, hmsg⟩
    have hs : "unhealthy" = "error: " ++ msg := by
      injection hmsg
    have hd := congrArg String.data hs
    rw [String.data_append] at hd
    rw [show "unhealthy".data = ['u', 'n', 'h', 'e', 'a', 'l', 't', 'h', 'y'] from rfl,
        show "error: ".data = ['e', 'r', 'r', 'o', 'r', ':', ' '] from rfl] at hd
    simp at hd

/-- C1 amended: the health aggregation returns gateway healthy with
exactly one entry per registered service, each computed from its own
probe alone; a probe that raises is recorded as an error entry, a
probe returning a non-200 status as unhealthy, and changing one
service probe leaves the entry of every other service unchanged. -/
theorem health_check_bulkheading :
    ∀ probes : List (String × gateway.ProbeResult),
      (gateway.health_check probes).gateway = "healthy"
      ∧ (gateway.health_check probes).services
          = probes.map (fun p => (p.1, gateway.probeEntry p.2))
      ∧ (∀ msg, gateway.isErrorEntry (gateway.probeEntry (.exn msg)))
      ∧ (∀ (status_code : Nat) (body : String), status_code ≠ 200 →
          gateway.probeEntry (.response status_code body) = .text "unhealthy")
      ∧ ∀ (d d' : List (String × gateway.ProbeResult)) (n : String)
          (r r' : gateway.ProbeResult),
          ((gateway.health_check (d ++ (n, r) :: d')).services).take d.length
            = ((gateway.health_check (d ++ (n, r') :: d')).services).take d.length
          ∧ ((gateway.health_check (d ++ (n, r) :: d')).services).drop (d.length + 1)
            = ((gateway.health_check (d ++ (n, r') :: d')).services).drop (d.length + 1) := by
  intro probes
  have hserv : ∀ ps : List (String × gateway.ProbeResult),
      (gateway.health_check ps).services
        = ps.map (fun p => (p.1, gateway.probeEntry p.2)) := by
    intro ps
    rw [gateway.health_check]
    exact health_foldl_eq_map ps []
  refine ⟨rfl, hserv probes, ?_, ?_, ?_⟩
  · intro msg
    exact ⟨msg, rfl⟩
  · intro status_code body hsc
    rw [gateway.probeEntry, if_neg hsc]
  · intro d d' n r r'
    constructor
    · rw [hserv, hserv]
      simp [List.map_append, List.take_append]
    · have hdrop : ∀ (v : String × gateway.HealthVal)
          (A B : List (String × gateway.HealthVal)),
          (A ++ v :: B).drop (A.length + 1) = B := by
        intro v A B
        rw [show A ++ v :: B = (A ++ [v]) ++ B by simp]
        rw [show A.length + 1 = (A ++ [v]).length by simp]
        exact List.drop_left _ _
      rw [hserv, hserv]
      simp only [List.map_append, List.map_cons]
      rw [show d.length
            = (d.map (fun p => (p.1, gateway.probeEntry p.2))).length
          from (List.length_map _ _).symm]
      rw [hdrop, hdrop]

/-- Instantiation of the health aggregation theorem: with three
registered services, one probe timing out, the aggregate stays healthy
with one entry per service and an error entry for the failed one. -/
theorem health_check_bulkheading_witness :
    (gateway.health_check
        [("auth", .response 200 "ok"), ("student", .exn "timeout"),
         ("staff", .response 200 "ok")]).gateway = "healthy"
    ∧ gateway.isErrorEntry (gateway.probeEntry (.exn "timeout"))
    ∧ gateway.probeEntry (.response 503 "down") = .text "unhealthy" :=
  ⟨(health_check_bulkheading
      [("auth", .response 200 "ok"), ("student", .exn "timeout"),
       ("staff", .response 200 "ok")]).1,
   (health_check_bulkheading []).2.2.1 "timeout",
   (health_check_bulkheading []).2.2.2.1 503 "down" (by omega)⟩

end ISM
